import Mathlib

/-!
# Verification of `cplane_np.py`

A shallow embedding of the escape-time evaluator (`julia`, `juliaNV`) and the
complex-plane grid classes (`ComplexPlaneNP`, `JuliaPlane`, `JuliaPlaneNV`)
of `cplane_np.py`, together with theorems settling the specification claims.

Modelling conventions:
* Python floats are modelled as exact rationals (the concrete inputs used in
  the claims are decimal literals whose escape-time behaviour has a wide
  margin, so float64 and exact arithmetic agree on every comparison taken).
* A complex number is a pair `(re, im) : ℚ × ℚ`; the test `abs(z) <= 2`
  is modelled as `normSq z ≤ 4`, which is equivalent and stays rational.
* The `while` loop inside `julia`/`juliaNV` is modelled with an explicit
  fuel argument.  The Python counter `n` starts at `0` and the loop breaks
  no later than the iteration in which `n = max`, so fuel `max + 1` is
  never exhausted; the fuel-0 clause is unreachable from `julia`.
* The pandas `DataFrame` is modelled as a list of rows (`List (List (ℚ × ℚ))`)
  plus the row/column label lists.  Labels are kept as the rational
  coordinate values of which Python stores the `str` rendering.
-/

namespace Cplane

/-- A complex number as a pair of rationals: real and imaginary part. -/
abbrev Q2 := ℚ × ℚ

/-- Complex addition on pairs. -/
def cadd (a b : Q2) : Q2 := (a.1 + b.1, a.2 + b.2)

/-- Complex multiplication on pairs. -/
def cmul (a b : Q2) : Q2 := (a.1 * b.1 - a.2 * b.2, a.1 * b.2 + a.2 * b.1)

/-- Squared modulus; `abs(z) <= 2` in the Python source is `normSq z ≤ 4` here. -/
def normSq (a : Q2) : ℚ := a.1 * a.1 + a.2 * a.2

/-- One loop body step of `julia`'s `f`: `z = z**2 + c`. -/
def juliaStep (c z : Q2) : Q2 := cadd (cmul z z) c

/-- `orbit c z t` is `z` after `t` applications of `z = z**2 + c`. -/
def orbit (c z : Q2) : ℕ → Q2
  | 0 => z
  | t + 1 => juliaStep c (orbit c z t)

/-- The `while abs(z)<=2:` loop inside `julia`'s `f` (cplane_np.py lines
309-317), returning the value of the Python counter `n` at loop exit
(before the trailing `n -= 1`).  The loop body is
`z = z**2 + c; if n >= max: n = 1; break; n += 1`.  `fuel` only bounds the
recursion; with the `max + 1` supplied by `julia` it is never exhausted. -/
def juliaWhile (c : Q2) (max : ℕ) : Q2 → ℕ → ℕ → ℕ
  | _, n, 0 => n
  | z, n, fuel + 1 =>
    if normSq z ≤ 4 then
      if max ≤ n then 1
      else juliaWhile c max (juliaStep c z) (n + 1) fuel
    else n

/-- The closure `f` returned by `julia(c, max)` (cplane_np.py lines 285-325):
if `abs(z) <= 2` run the while loop and return its counter minus one,
otherwise report `1` for an input that is already too big. -/
def julia (c : Q2) (max : ℕ) : Q2 → ℤ := fun z =>
  if normSq z ≤ 4 then (juliaWhile c max z 0 (max + 1) : ℤ) - 1
  else 1

/-- The while loop of `juliaNV`'s `f` (cplane_np.py lines 350-358); the body
is textually identical to the one in `julia`. -/
def juliaNVWhile (c : Q2) (max : ℕ) : Q2 → ℕ → ℕ → ℕ
  | _, n, 0 => n
  | z, n, fuel + 1 =>
    if normSq z ≤ 4 then
      if max ≤ n then 1
      else juliaNVWhile c max (juliaStep c z) (n + 1) fuel
    else n

/-- The closure `f` returned by `juliaNV(c, max)` (cplane_np.py lines
328-366), the non-vectorized twin of `julia`. -/
def juliaNV (c : Q2) (max : ℕ) : Q2 → ℤ := fun z =>
  if normSq z ≤ 4 then (juliaNVWhile c max z 0 (max + 1) : ℤ) - 1
  else 1

/-- `np.linspace(lo, hi, len)`: `len` evenly spaced points from `lo` to `hi`
inclusive, point `k` at `lo + k * (hi - lo)/(len - 1)` (exact in ℚ). -/
def linspace (lo hi : ℚ) (len : ℕ) : List ℚ :=
  (List.range len).map (fun k => lo + k * ((hi - lo) / ((len : ℚ) - 1)))

/-- The mutable state of a `JuliaPlane` / `JuliaPlaneNV` object: the
attributes set by `ComplexPlaneNP.__init__` and the subclass creators.
The closure attribute `f` is always `julia(c, cap)` (or `juliaNV(c, cap)`),
so it is represented by its captured data `c` and `cap`.  The unread
attribute `self.max` (assigned in `__init__`, never consulted) is omitted. -/
structure JuliaPlaneState where
  xmin : ℚ
  xmax : ℚ
  ymin : ℚ
  ymax : ℚ
  xlen : ℕ
  ylen : ℕ
  xstep : ℚ
  ystep : ℚ
  c : Q2
  cap : ℕ
  plane : List (List Q2)
  ylabels : List ℚ
  xlabels : List ℚ

/-- The array stored by `ComplexPlaneNP.refresh` (cplane_np.py lines 56-63):
`np.meshgrid` of the two linspaces, so row `i`, column `j` holds the raw
coordinate `(rx[j], ry[i])` with `ry[i] = ymin + i*ystep`.  The call
`self.f( planeArray )` on line 60 discards its result, so `f` never affects
the stored plane; this embedding keeps that behaviour. -/
def meshPlane (s : JuliaPlaneState) : List (List Q2) :=
  (linspace s.ymin s.ymax s.ylen).map (fun y =>
    (linspace s.xmin s.xmax s.xlen).map (fun x => (x, y)))

/-- Row labels computed by `refresh`: `ymax - ypos*ystep` for each row. -/
def ylabelsOf (s : JuliaPlaneState) : List ℚ :=
  (List.range s.ylen).map (fun ypos => s.ymax - (ypos : ℚ) * s.ystep)

/-- Column labels computed by `refresh`: `xpos*xstep + xmin` for each column. -/
def xlabelsOf (s : JuliaPlaneState) : List ℚ :=
  (List.range s.xlen).map (fun xpos => (xpos : ℚ) * s.xstep + s.xmin)

/-- `ComplexPlaneNP.refresh` as used by `JuliaPlane` (vectorized): rebuild
the plane from the meshgrid (the `f` result being discarded) and rebuild
the labels. -/
def refreshJP (s : JuliaPlaneState) : JuliaPlaneState :=
  { s with plane := meshPlane s, ylabels := ylabelsOf s, xlabels := xlabelsOf s }

/-- `JuliaPlane.__init__`: store bounds, lengths, steps and the julia closure
data, then `refresh()`. -/
def initJP (nXmin nXmax : ℚ) (nXlen : ℕ) (nYmin nYmax : ℚ) (nYlen : ℕ)
    (c : Q2) (maxLoop : ℕ) : JuliaPlaneState :=
  refreshJP
    { xmin := nXmin, xmax := nXmax, ymin := nYmin, ymax := nYmax
      xlen := nXlen, ylen := nYlen
      xstep := (nXmax - nXmin) / ((nXlen : ℚ) - 1)
      ystep := (nYmax - nYmin) / ((nYlen : ℚ) - 1)
      c := c, cap := maxLoop
      plane := [], ylabels := [], xlabels := [] }

/-- `ComplexPlaneNP.zoom` (cplane_np.py lines 67-79): overwrite the four
bounds, recompute both steps, `refresh()`.  The Python method performs no
validation of the new bounds. -/
def zoomJP (s : JuliaPlaneState) (newXmin newXmax newYmin newYmax : ℚ) :
    JuliaPlaneState :=
  refreshJP
    { s with
      xmin := newXmin, xmax := newXmax, ymin := newYmin, ymax := newYmax
      xstep := (newXmax - newXmin) / ((s.xlen : ℚ) - 1)
      ystep := (newYmax - newYmin) / ((s.ylen : ℚ) - 1) }

/-- `JuliaPlane.set_f(c, max=100)`: store `c`, rebind `f = julia(c, max)`,
`refresh()`. -/
def setfJP (s : JuliaPlaneState) (c : Q2) (max : ℕ) : JuliaPlaneState :=
  refreshJP { s with c := c, cap := max }

/-- The scalar parameters written by `toCSV` (row 2) and `toJSON`
(the `JuliaPlaneParameters` object): bounds, lengths and `c`. -/
structure JuliaParams where
  xmin : ℚ
  xmax : ℚ
  xlen : ℕ
  ymin : ℚ
  ymax : ℚ
  ylen : ℕ
  creal : ℚ
  cimag : ℚ

/-- The parameters a `toCSV`/`toJSON` call records for state `s`. -/
def toParams (s : JuliaPlaneState) : JuliaParams :=
  { xmin := s.xmin, xmax := s.xmax, xlen := s.xlen
    ymin := s.ymin, ymax := s.ymax, ylen := s.ylen
    creal := s.c.1, cimag := s.c.2 }

/-- `JuliaPlane.fromCSV` (cplane_np.py lines 154-184): overwrite the bounds,
lengths and `c` with the stored parameters, recompute both steps, then
`self.set_f(self.c)` - which uses the default iteration cap 100 and
refreshes.  Stored cell contents are never read. -/
def fromCSVJP (s : JuliaPlaneState) (p : JuliaParams) : JuliaPlaneState :=
  setfJP
    { s with
      xmin := p.xmin, xmax := p.xmax, xlen := p.xlen
      ymin := p.ymin, ymax := p.ymax, ylen := p.ylen
      c := (p.creal, p.cimag)
      xstep := (p.xmax - p.xmin) / ((p.xlen : ℚ) - 1)
      ystep := (p.ymax - p.ymin) / ((p.ylen : ℚ) - 1) }
    (p.creal, p.cimag) 100

/-- `JuliaPlane.fromJSON` (cplane_np.py lines 210-237): same parameter fields
(`c` rebuilt from `creal + cimag*1j`), same step recomputation, same
`self.set_f(self.c)` call with the default cap 100. -/
def fromJSONJP (s : JuliaPlaneState) (p : JuliaParams) : JuliaPlaneState :=
  setfJP
    { s with
      xmin := p.xmin, xmax := p.xmax, xlen := p.xlen
      ymin := p.ymin, ymax := p.ymax, ylen := p.ylen
      c := (p.creal, p.cimag)
      xstep := (p.xmax - p.xmin) / ((p.xlen : ℚ) - 1)
      ystep := (p.ymax - p.ymin) / ((p.ylen : ℚ) - 1) }
    (p.creal, p.cimag) 100

/-- An integer escape count stored into the numeric (real-valued) numpy
array of `JuliaPlaneNV.refresh`, compared against complex cells as the
complex number with zero imaginary part. -/
def intToCell (n : ℤ) : Q2 := ((n : ℚ), 0)

/-- The array stored by `JuliaPlaneNV.refresh` (cplane_np.py lines 265-272):
`planeArray[ylen-ypos-1, xpos] = f(xpos*xstep+xmin + (ypos*ystep+ymin)*1j)`,
so output row `r` holds `ypos = ylen-1-r`, giving rows ordered
top-to-bottom with decreasing `y`.  (The Python source allocates
`np.zeros([xlen, ylen])`, which is only shape-consistent when
`xlen = ylen`; all concrete instances below are square.) -/
def nvPlane (s : JuliaPlaneState) : List (List Q2) :=
  (List.range s.ylen).map (fun r =>
    (List.range s.xlen).map (fun xpos =>
      intToCell (juliaNV s.c s.cap
        ((xpos : ℚ) * s.xstep + s.xmin,
         ((s.ylen - 1 - r : ℕ) : ℚ) * s.ystep + s.ymin))))

/-- `JuliaPlaneNV.refresh`: rebuild the plane cell by cell through the
`juliaNV` closure, and rebuild the labels with the same formulas as the
base class. -/
def refreshNV (s : JuliaPlaneState) : JuliaPlaneState :=
  { s with plane := nvPlane s, ylabels := ylabelsOf s, xlabels := xlabelsOf s }

/-- `JuliaPlaneNV.__init__`: same attribute setup as `JuliaPlane.__init__`,
but `refresh` dispatches to the non-vectorized override. -/
def initNV (nXmin nXmax : ℚ) (nXlen : ℕ) (nYmin nYmax : ℚ) (nYlen : ℕ)
    (c : Q2) (maxLoop : ℕ) : JuliaPlaneState :=
  refreshNV
    { xmin := nXmin, xmax := nXmax, ymin := nYmin, ymax := nYmax
      xlen := nXlen, ylen := nYlen
      xstep := (nXmax - nXmin) / ((nXlen : ℚ) - 1)
      ystep := (nYmax - nYmin) / ((nYlen : ℚ) - 1)
      c := c, cap := maxLoop
      plane := [], ylabels := [], xlabels := [] }

/-- `JuliaPlaneNV.set_f(c, max=100)`: store `c`, rebind `f = juliaNV(c, max)`,
`refresh()` (non-vectorized). -/
def setfNV (s : JuliaPlaneState) (c : Q2) (max : ℕ) : JuliaPlaneState :=
  refreshNV { s with c := c, cap := max }

/-- `fromCSV` as inherited by `JuliaPlaneNV`: identical parameter parsing,
but `self.set_f(self.c)` dispatches to the NV override, again with the
default iteration cap 100. -/
def fromCSVNV (s : JuliaPlaneState) (p : JuliaParams) : JuliaPlaneState :=
  setfNV
    { s with
      xmin := p.xmin, xmax := p.xmax, xlen := p.xlen
      ymin := p.ymin, ymax := p.ymax, ylen := p.ylen
      c := (p.creal, p.cimag)
      xstep := (p.xmax - p.xmin) / ((p.xlen : ℚ) - 1)
      ystep := (p.ymax - p.ymin) / ((p.ylen : ℚ) - 1) }
    (p.creal, p.cimag) 100

/-! ## Loop characterization lemmas

Every run of the closure returned by `julia(c, max)` falls into exactly one
of three cases, captured by the lemmas below:
* the input is already too big (`julia_big`): the result is `1`;
* the orbit stays within magnitude 2 for the whole budget
  (`julia_bounded`): the result is `0`;
* the orbit first exceeds magnitude 2 after `t` applications with
  `1 ≤ t ≤ max` (`julia_escape`): the result is `t - 1`, because the
  Python counter is incremented after each application and decremented
  once after the loop. -/

theorem juliaWhile_succ (c : Q2) (max : ℕ) (z : Q2) (n f : ℕ) :
    juliaWhile c max z n (f + 1) =
      if normSq z ≤ 4 then
        (if max ≤ n then 1 else juliaWhile c max (juliaStep c z) (n + 1) f)
      else n := rfl

theorem juliaNVWhile_succ (c : Q2) (max : ℕ) (z : Q2) (n f : ℕ) :
    juliaNVWhile c max z n (f + 1) =
      if normSq z ≤ 4 then
        (if max ≤ n then 1 else juliaNVWhile c max (juliaStep c z) (n + 1) f)
      else n := rfl

theorem julia_big (c : Q2) (max : ℕ) (z : Q2) (h : 4 < normSq z) :
    julia c max z = 1 := by
  unfold julia
  rw [if_neg (not_le.mpr h)]

theorem juliaWhile_break (c z : Q2) (max : ℕ)
    (hb : ∀ t, t ≤ max → normSq (orbit c z t) ≤ 4) :
    ∀ fuel k, 0 < fuel → k + fuel = max + 1 →
      juliaWhile c max (orbit c z k) k fuel = 1 := by
  intro fuel
  induction fuel with
  | zero => intro k h _; exact absurd h (lt_irrefl 0)
  | succ f ih =>
    intro k _ hk
    have hkmax : k ≤ max := by omega
    rw [juliaWhile_succ, if_pos (hb k hkmax)]
    by_cases hm : max ≤ k
    · rw [if_pos hm]
    · rw [if_neg hm]
      exact ih (k + 1) (by omega) (by omega)

theorem juliaWhile_escape (c z : Q2) (max t : ℕ) (h2 : t ≤ max)
    (hin : ∀ s, s < t → normSq (orbit c z s) ≤ 4)
    (hout : 4 < normSq (orbit c z t)) :
    ∀ fuel k, k ≤ t → k + fuel = max + 1 →
      juliaWhile c max (orbit c z k) k fuel = t := by
  intro fuel
  induction fuel with
  | zero => intro k hkt hk; exact absurd hk (by omega)
  | succ f ih =>
    intro k hkt hk
    rcases eq_or_lt_of_le hkt with rfl | hlt
    · rw [juliaWhile_succ, if_neg (not_le.mpr hout)]
    · rw [juliaWhile_succ, if_pos (hin k hlt),
        if_neg (by omega : ¬ max ≤ k)]
      exact ih (k + 1) (by omega) (by omega)

theorem julia_bounded (c z : Q2) (max : ℕ)
    (hb : ∀ t, t ≤ max → normSq (orbit c z t) ≤ 4) :
    julia c max z = 0 := by
  have h0 : normSq z ≤ 4 := hb 0 (Nat.zero_le max)
  unfold julia
  rw [if_pos h0,
    show juliaWhile c max z 0 (max + 1) = 1 from
      juliaWhile_break c z max hb (max + 1) 0 (Nat.succ_pos max) (by omega)]
  norm_num

theorem julia_escape (c z : Q2) (max t : ℕ) (h1 : 1 ≤ t) (h2 : t ≤ max)
    (hin : ∀ s, s < t → normSq (orbit c z s) ≤ 4)
    (hout : 4 < normSq (orbit c z t)) :
    julia c max z = (t : ℤ) - 1 := by
  have h0 : normSq z ≤ 4 := hin 0 h1
  unfold julia
  rw [if_pos h0,
    show juliaWhile c max z 0 (max + 1) = t from
      juliaWhile_escape c z max t h2 hin hout (max + 1) 0 (Nat.zero_le t)
        (by omega)]

theorem juliaNVWhile_eq (c : Q2) (max : ℕ) :
    ∀ fuel z n, juliaNVWhile c max z n fuel = juliaWhile c max z n fuel := by
  intro fuel
  induction fuel with
  | zero => intro z n; rfl
  | succ f ih =>
    intro z n
    rw [juliaNVWhile_succ, juliaWhile_succ, ih]

/-- The scalar closures produced by `julia` and `juliaNV` are the same
function: the two source bodies are textually identical. -/
theorem juliaNV_eq_julia : juliaNV = julia := by
  funext c max z
  unfold juliaNV julia
  rw [juliaNVWhile_eq]

/-! ## Concrete escape values

Values of the closure at the lattice points of the concrete grids used
below, all derived from the three characterization lemmas.  With
`c = 0.2 + 0.2j`: the orbit of `0.7+0.7j` first exceeds magnitude 2 at
application 4, those of `0.7+1j` and `1+0.7j` at application 2, and that
of `1+1j` at application 1. -/

theorem julia_c22_z77 : julia (1/5, 1/5) 100 (7/10, 7/10) = 3 := by
  have h := julia_escape (1/5, 1/5) (7/10, 7/10) 100 4 (by norm_num) (by norm_num)
    (by intro s hs; interval_cases s <;> norm_num [orbit, juliaStep, cadd, cmul, normSq])
    (by norm_num [orbit, juliaStep, cadd, cmul, normSq])
  simpa using h

theorem julia_c22_z7x1 : julia (1/5, 1/5) 100 (7/10, 1) = 1 := by
  have h := julia_escape (1/5, 1/5) (7/10, 1) 100 2 (by norm_num) (by norm_num)
    (by intro s hs; interval_cases s <;> norm_num [orbit, juliaStep, cadd, cmul, normSq])
    (by norm_num [orbit, juliaStep, cadd, cmul, normSq])
  simpa using h

theorem julia_c22_z1x7 : julia (1/5, 1/5) 100 (1, 7/10) = 1 := by
  have h := julia_escape (1/5, 1/5) (1, 7/10) 100 2 (by norm_num) (by norm_num)
    (by intro s hs; interval_cases s <;> norm_num [orbit, juliaStep, cadd, cmul, normSq])
    (by norm_num [orbit, juliaStep, cadd, cmul, normSq])
  simpa using h

theorem julia_c22_z11 : julia (1/5, 1/5) 100 (1, 1) = 0 := by
  have h := julia_escape (1/5, 1/5) (1, 1) 100 1 (by norm_num) (by norm_num)
    (by intro s hs; interval_cases s <;> norm_num [orbit, juliaStep, cadd, cmul, normSq])
    (by norm_num [orbit, juliaStep, cadd, cmul, normSq])
  simpa using h

theorem julia_cap3_z77 : julia (1/5, 1/5) 3 (7/10, 7/10) = 0 :=
  julia_bounded (1/5, 1/5) (7/10, 7/10) 3
    (by intro t ht; interval_cases t <;> norm_num [orbit, juliaStep, cadd, cmul, normSq])

theorem julia_cap3_z7x1 : julia (1/5, 1/5) 3 (7/10, 1) = 1 := by
  have h := julia_escape (1/5, 1/5) (7/10, 1) 3 2 (by norm_num) (by norm_num)
    (by intro s hs; interval_cases s <;> norm_num [orbit, juliaStep, cadd, cmul, normSq])
    (by norm_num [orbit, juliaStep, cadd, cmul, normSq])
  simpa using h

theorem julia_cap3_z1x7 : julia (1/5, 1/5) 3 (1, 7/10) = 1 := by
  have h := julia_escape (1/5, 1/5) (1, 7/10) 3 2 (by norm_num) (by norm_num)
    (by intro s hs; interval_cases s <;> norm_num [orbit, juliaStep, cadd, cmul, normSq])
    (by norm_num [orbit, juliaStep, cadd, cmul, normSq])
  simpa using h

theorem julia_cap3_z11 : julia (1/5, 1/5) 3 (1, 1) = 0 := by
  have h := julia_escape (1/5, 1/5) (1, 1) 3 1 (by norm_num) (by norm_num)
    (by intro s hs; interval_cases s <;> norm_num [orbit, juliaStep, cadd, cmul, normSq])
    (by norm_num [orbit, juliaStep, cadd, cmul, normSq])
  simpa using h

/-! ## Concrete grids

The common configuration used for the concrete claims:
`xmin = ymin = 0.7`, `xmax = ymax = 1.0`, `xlen = ylen = 2`,
`c = 0.2+0.2j`, so `xstep = ystep = 0.3` and the lattice is
`{0.7, 1.0} x {0.7, 1.0}`. -/

theorem initJP_plane_eval :
    (initJP (7/10) 1 2 (7/10) 1 2 (1/5, 1/5) 100).plane =
      [[(7/10, 7/10), (1, 7/10)], [(7/10, 1), (1, 1)]] := by
  norm_num [initJP, refreshJP, meshPlane, linspace, List.range_succ,
    -Prod.mk_one_one, -Prod.mk_zero_zero]

theorem initJP_ylabels_eval :
    (initJP (7/10) 1 2 (7/10) 1 2 (1/5, 1/5) 100).ylabels = [1, 7/10] := by
  norm_num [initJP, refreshJP, ylabelsOf, List.range_succ]

theorem initNV_plane_eval :
    (initNV (7/10) 1 2 (7/10) 1 2 (1/5, 1/5) 100).plane =
      [[(1, 0), (0, 0)], [(3, 0), (1, 0)]] := by
  norm_num [initNV, refreshNV, nvPlane, List.range_succ, intToCell,
    juliaNV_eq_julia, julia_c22_z77, julia_c22_z7x1, julia_c22_z1x7,
    julia_c22_z11, -Prod.mk_one_one, -Prod.mk_zero_zero]

theorem initNV_cap3_plane_eval :
    (initNV (7/10) 1 2 (7/10) 1 2 (1/5, 1/5) 3).plane =
      [[(1, 0), (0, 0)], [(0, 0), (1, 0)]] := by
  norm_num [initNV, refreshNV, nvPlane, List.range_succ, intToCell,
    juliaNV_eq_julia, julia_cap3_z77, julia_cap3_z7x1, julia_cap3_z1x7,
    julia_cap3_z11, -Prod.mk_one_one, -Prod.mk_zero_zero]

theorem roundtripNV_cap3_plane_eval :
    (fromCSVNV (initNV (7/10) 1 2 (7/10) 1 2 (1/5, 1/5) 3)
        (toParams (initNV (7/10) 1 2 (7/10) 1 2 (1/5, 1/5) 3))).plane =
      [[(1, 0), (0, 0)], [(3, 0), (1, 0)]] := by
  norm_num [fromCSVNV, setfNV, toParams, initNV, refreshNV, nvPlane,
    List.range_succ, intToCell, juliaNV_eq_julia, julia_c22_z77,
    julia_c22_z7x1, julia_c22_z1x7, julia_c22_z11, -Prod.mk_one_one,
    -Prod.mk_zero_zero]

/-! ## Claims -/

/-- C1: the claim says the cell at row `i`, column `j` of the vectorized
plane holds the escape value `f(x + y*1j)`, not the raw coordinate.  The
code stores the raw coordinate: `ComplexPlaneNP.refresh` discards the
result of `self.f( planeArray )`.  On the 2x2 grid over
`[0.7,1]x[0.7,1]` with `c = 0.2+0.2j`, cell `(0,0)` holds the coordinate
`0.7+0.7j`, which differs from the escape value `julia(c,100)(0.7+0.7j) = 3`. -/
theorem C1_cell_is_raw_coordinate_not_escape_value :
    (((initJP (7/10) 1 2 (7/10) 1 2 (1/5, 1/5) 100).plane.getD 0 []).getD 0
        (0, 0) = ((7 : ℚ)/10, (7 : ℚ)/10)) ∧
    ((initJP (7/10) 1 2 (7/10) 1 2 (1/5, 1/5) 100).plane.getD 0 []).getD 0
        (0, 0) ≠ intToCell (julia (1/5, 1/5) 100 (7/10, 7/10)) := by
  rw [initJP_plane_eval]
  refine ⟨rfl, ?_⟩
  rw [julia_c22_z77]
  norm_num [intToCell]

/-- C2 counterexample: with `c = 0`, `z0 = 2` the orbit exceeds magnitude 2
after exactly one application (`z1 = 4`), yet the function returns `0`,
not the `1` the claim requires. -/
theorem C2_escape_after_one_application_returns_zero :
    normSq (2, 0) ≤ 4 ∧ 4 < normSq (orbit (0, 0) (2, 0) 1) ∧
    julia (0, 0) 100 (2, 0) ≠ 1 := by
  have h := julia_escape (0, 0) (2, 0) 100 1 le_rfl (by norm_num)
    (by intro s hs; interval_cases s <;> norm_num [orbit, juliaStep, cadd, cmul, normSq])
    (by norm_num [orbit, juliaStep, cadd, cmul, normSq])
  refine ⟨by norm_num [normSq], by norm_num [orbit, juliaStep, cadd, cmul, normSq], ?_⟩
  rw [h]
  norm_num

/-- C2 amended: if the loop exits because the magnitude exceeded 2 after
`t` applications of `z = z**2 + c` with `1 ≤ t ≤ max`, both `julia` and
`juliaNV` closures return `t - 1` (the count of applications completed
before the escaping one); escape after exactly one application returns 0. -/
theorem C2_escape_returns_count_minus_one (c z : Q2) (max t : ℕ)
    (h1 : 1 ≤ t) (h2 : t ≤ max)
    (hin : ∀ s, s < t → normSq (orbit c z s) ≤ 4)
    (hout : 4 < normSq (orbit c z t)) :
    julia c max z = (t : ℤ) - 1 ∧ juliaNV c max z = (t : ℤ) - 1 := by
  have h := julia_escape c z max t h1 h2 hin hout
  exact ⟨h, by rw [juliaNV_eq_julia]; exact h⟩

/-- Witness for C2's amended theorem at `c = 0.2+0.2j`, `z0 = 0.7+0.7j`,
`max = 100`, escape application `t = 4`: the result is `4 - 1 = 3`. -/
theorem C2_escape_returns_count_minus_one_witness :
    (1 ≤ 4 ∧ 4 ≤ 100) ∧
    (∀ s, s < 4 → normSq (orbit (1/5, 1/5) (7/10, 7/10) s) ≤ 4) ∧
    4 < normSq (orbit (1/5, 1/5) (7/10, 7/10) 4) ∧
    julia (1/5, 1/5) 100 (7/10, 7/10) = (4 : ℤ) - 1 :=
  ⟨⟨by norm_num, by norm_num⟩,
   by intro s hs; interval_cases s <;> norm_num [orbit, juliaStep, cadd, cmul, normSq],
   by norm_num [orbit, juliaStep, cadd, cmul, normSq],
   (C2_escape_returns_count_minus_one (1/5, 1/5) (7/10, 7/10) 100 4
      (by norm_num) (by norm_num)
      (by intro s hs; interval_cases s <;> norm_num [orbit, juliaStep, cadd, cmul, normSq])
      (by norm_num [orbit, juliaStep, cadd, cmul, normSq])).1⟩

/-- C3: for every `c`, every cap and every `z` with `|z| > 2` (that is,
`normSq z > 4`), the escape function returns 1 immediately (the `else`
branch of the closure, which performs no iteration). -/
theorem C3_too_big_returns_one (c : Q2) (max : ℕ) (z : Q2)
    (h : 4 < normSq z) : julia c max z = 1 := by
  unfold julia
  rw [if_neg (not_le.mpr h)]

/-- Witness for C3 at the tested concrete case `c = 2+2j`, `z0 = 7+7j`. -/
theorem C3_too_big_returns_one_witness :
    4 < normSq (7, 7) ∧ julia (2, 2) 100 (7, 7) = 1 :=
  ⟨by norm_num [normSq], C3_too_big_returns_one (2, 2) 100 (7, 7) (by norm_num [normSq])⟩

/-- C4: for every `c`, every positive cap and every `z0` with `|z0| ≤ 2`
whose orbit never exceeds magnitude 2 within `max` applications, the
escape function returns 0. -/
theorem C4_never_escapes_returns_zero (c z : Q2) (max : ℕ) (hm : 1 ≤ max)
    (hb : ∀ t, t ≤ max → normSq (orbit c z t) ≤ 4) :
    julia c max z = 0 :=
  julia_bounded c z max hb

/-- Witness for C4 at the tested concrete case `c = 0.1+0.1j`,
`z0 = 0.1+0.1j`, `maxIter = 10`. -/
theorem C4_never_escapes_returns_zero_witness :
    (1 : ℕ) ≤ 10 ∧
    (∀ t, t ≤ 10 → normSq (orbit (1/10, 1/10) (1/10, 1/10) t) ≤ 4) ∧
    julia (1/10, 1/10) 10 (1/10, 1/10) = 0 :=
  ⟨by norm_num,
   by intro t ht; interval_cases t <;> norm_num [orbit, juliaStep, cadd, cmul, normSq],
   C4_never_escapes_returns_zero (1/10, 1/10) (1/10, 1/10) 10 (by norm_num)
     (by intro t ht; interval_cases t <;> norm_num [orbit, juliaStep, cadd, cmul, normSq])⟩

/-- C5: the escape function at `z0 = 0.7+0.7j`, `c = 0.2+0.2j`, cap 100
returns exactly 3 (the orbit first exceeds magnitude 2 at application 4). -/
theorem C5_concrete_escape_count : julia (1/5, 1/5) 100 (7/10, 7/10) = 3 :=
  julia_c22_z77

/-- C6 counterexample: `zoom` called with `newXmax = 0 < 1 = newXmin` does
not raise and does not leave the configuration unchanged: it overwrites
`xmin` (and the rest of the bounds) with the invalid values. -/
theorem C6_invalid_zoom_mutates_state :
    (zoomJP (initJP 0 1 2 0 1 2 (1/5, 1/5) 100) 1 0 0 1).xmin ≠
      (initJP 0 1 2 0 1 2 (1/5, 1/5) 100).xmin := by
  norm_num [zoomJP, refreshJP, initJP]

/-- C6 amended: `zoom` performs no bounds validation.  For every call -
including those with `newXmax ≤ newXmin` or `newYmax ≤ newYmin` - it
overwrites the four bounds, keeps the resolution, recomputes both steps
(possibly zero or negative) and regenerates the plane from the new
bounds; no `InvalidBounds` error exists in the code. -/
theorem C6_zoom_never_validates (s : JuliaPlaneState) (a b d e : ℚ) :
    (zoomJP s a b d e).xmin = a ∧ (zoomJP s a b d e).xmax = b ∧
    (zoomJP s a b d e).ymin = d ∧ (zoomJP s a b d e).ymax = e ∧
    (zoomJP s a b d e).xlen = s.xlen ∧ (zoomJP s a b d e).ylen = s.ylen ∧
    (zoomJP s a b d e).xstep = (b - a) / ((s.xlen : ℚ) - 1) ∧
    (zoomJP s a b d e).ystep = (e - d) / ((s.ylen : ℚ) - 1) ∧
    (zoomJP s a b d e).plane =
      (linspace d e s.ylen).map (fun y =>
        (linspace a b s.xlen).map (fun x => (x, y))) :=
  ⟨rfl, rfl, rfl, rfl, rfl, rfl, rfl, rfl, rfl⟩

/-- C7: the scalar closures of `julia` and `juliaNV` do agree on every
input, but the two plane classes do not produce identical grids on a
common configuration: `JuliaPlane.refresh` discards the escape values
(storing raw coordinates, rows bottom-to-top), while
`JuliaPlaneNV.refresh` stores escape counts (rows top-to-bottom). -/
theorem C7_vectorized_and_scalar_planes_disagree :
    juliaNV = julia ∧
    (initJP (7/10) 1 2 (7/10) 1 2 (1/5, 1/5) 100).plane ≠
      (initNV (7/10) 1 2 (7/10) 1 2 (1/5, 1/5) 100).plane := by
  refine ⟨juliaNV_eq_julia, ?_⟩
  rw [initJP_plane_eval, initNV_plane_eval]
  norm_num

/-- C8: the claim says row `i` of the stored grid holds
`y = ymax - i*ystep` (top-to-bottom, decreasing), agreeing with the row
labels.  In the vectorized plane the meshgrid orders rows with increasing
`y`: on the concrete grid, row 0 stores `y = ymin = 0.7` while its label
is `ymax = 1`. -/
theorem C8_row_zero_holds_ymin_label_says_ymax :
    ((((initJP (7/10) 1 2 (7/10) 1 2 (1/5, 1/5) 100).plane.getD 0 []).getD 0
        (0, 0)).2 = (initJP (7/10) 1 2 (7/10) 1 2 (1/5, 1/5) 100).ymin) ∧
    ((initJP (7/10) 1 2 (7/10) 1 2 (1/5, 1/5) 100).ylabels.getD 0 0 =
      (initJP (7/10) 1 2 (7/10) 1 2 (1/5, 1/5) 100).ymax) ∧
    (initJP (7/10) 1 2 (7/10) 1 2 (1/5, 1/5) 100).ymin ≠
      (initJP (7/10) 1 2 (7/10) 1 2 (1/5, 1/5) 100).ymax := by
  rw [initJP_plane_eval, initJP_ylabels_eval]
  refine ⟨rfl, ?_, ?_⟩ <;> norm_num [initJP, refreshJP]

/-- C9 counterexample: a `JuliaPlaneNV` built with iteration cap 3
round-trips through its serialized parameters (which do not include the
cap) to a plane regenerated with the default cap 100, and the grids
differ: cell `(1,0)` holds 0 before and 3 after. -/
theorem C9_nv_roundtrip_changes_grid :
    (fromCSVNV (initNV (7/10) 1 2 (7/10) 1 2 (1/5, 1/5) 3)
        (toParams (initNV (7/10) 1 2 (7/10) 1 2 (1/5, 1/5) 3))).plane ≠
      (initNV (7/10) 1 2 (7/10) 1 2 (1/5, 1/5) 3).plane := by
  rw [roundtripNV_cap3_plane_eval, initNV_cap3_plane_eval]
  norm_num

/-- C9 amended: for every vectorized `JuliaPlane`, deserializing the
serialized parameters (CSV or JSON) and regenerating yields a grid
cell-by-cell identical to the original, whatever object receives the
`fromCSV`/`fromJSON` call; the stored grid depends only on the serialized
bounds and lengths.  (For `JuliaPlaneNV` the iteration cap is not
serialized, so a cap other than the default 100 need not round-trip.) -/
theorem C9_vectorized_roundtrip_identical (a b : ℚ) (m : ℕ) (d e : ℚ)
    (n : ℕ) (c : Q2) (cap : ℕ) (s : JuliaPlaneState) :
    (fromCSVJP s (toParams (initJP a b m d e n c cap))).plane =
      (initJP a b m d e n c cap).plane ∧
    (fromJSONJP s (toParams (initJP a b m d e n c cap))).plane =
      (initJP a b m d e n c cap).plane :=
  ⟨rfl, rfl⟩

/-- C10: whenever `|z0| ≤ 2` but `|z0² + c| > 2` and the cap is at least
1, both closures return 0 - the same value as the never-escapes
sentinel - so escape after exactly one application is conflated with
never escaping. -/
theorem C10_one_application_escape_conflated_with_never (c z : Q2)
    (max : ℕ) (hm : 1 ≤ max) (h0 : normSq z ≤ 4)
    (h1 : 4 < normSq (juliaStep c z)) :
    julia c max z = 0 ∧ juliaNV c max z = 0 := by
  have h := julia_escape c z max 1 le_rfl hm
    (by intro s hs; interval_cases s; exact h0) h1
  norm_num at h
  exact ⟨h, by rw [juliaNV_eq_julia]; exact h⟩

/-- Witness for C10 at `c = 2+2j`, `z0 = 1+1j`, cap 1:
`z1 = (1+1j)² + c = 2+4j` has magnitude above 2, and the result is 0. -/
theorem C10_one_application_escape_conflated_with_never_witness :
    (1 : ℕ) ≤ 1 ∧ normSq (1, 1) ≤ 4 ∧
    4 < normSq (juliaStep (2, 2) (1, 1)) ∧
    julia (2, 2) 1 (1, 1) = 0 :=
  ⟨le_rfl, by norm_num [normSq], by norm_num [juliaStep, cadd, cmul, normSq],
   (C10_one_application_escape_conflated_with_never (2, 2) (1, 1) 1 le_rfl
      (by norm_num [normSq]) (by norm_num [juliaStep, cadd, cmul, normSq])).1⟩

end Cplane
